import Mathlib

/-!
Shallow embedding of the APIKart-Storage utility layer: the compression
strategy registry (compressor.py), the DigitalOcean Spaces wrapper
(digital_ocean.py), the transfer record schema (schema.py) and the transfer
orchestrator (main.py).  Remote services and third-party libraries are
external collaborators and are modelled from the specification; Python byte
strings are `List Nat`, Python `str` is `String`, Python `None` is
`Option.none`.  The orchestrator awaits its collaborators, but every
collaborator it awaits is a plain synchronous function: the call itself runs
to completion and then awaiting its non-awaitable return value raises
TypeError, which each enclosing try/except converts as the code dictates.
The embeddings below follow that traced control flow.
-/

/-- Python exception kinds observable on the embedded code paths, named after
the specification's error taxonomy (the source raises ValueError for the
first two). -/
inductive PyErr where
  | nameErr
  | configurationError
  | unsupportedFormat
  | sourceReadError
  | corruptData
  | validationError
  deriving DecidableEq

/-- Modelled from the spec: a codec behind the strategy interface of §4.1
(compress(bytes, level) -> bytes, decompress(bytes) -> bytes). -/
structure CompressionStrategy where
  compress : List Nat → Int → List Nat
  decompress : List Nat → Except PyErr (List Nat)

/-- Modelled from the spec: the real codecs (gzip, bz2, lzma, zlib and
zstandard libraries) are external collaborators whose only specified
properties are round-trip identity and failure on corrupt or
mismatched-format input; each codec is modelled as a tagged identity
transform on the byte sequence.  §4.1 lets the codec interpret or clamp the
level per its own semantics, so the level does not affect invertibility. -/
def taggedCompress (tag : Nat) (data : List Nat) (_level : Int) : List Nat :=
  tag :: data

/-- Modelled from the spec: inverse of `taggedCompress`; rejects input that
does not carry this codec's tag (the spec's CorruptData failure). -/
def taggedDecompress (tag : Nat) : List Nat → Except PyErr (List Nat)
  | t :: rest => if t = tag then .ok rest else .error .corruptData
  | [] => .error .corruptData

/-- Modelled from the spec: GzipStrategy delegates to the gzip library. -/
def GzipStrategy : CompressionStrategy :=
  ⟨taggedCompress 1, taggedDecompress 1⟩

/-- Modelled from the spec: Bz2Strategy delegates to the bz2 library. -/
def Bz2Strategy : CompressionStrategy :=
  ⟨taggedCompress 2, taggedDecompress 2⟩

/-- Modelled from the spec: LzmaStrategy delegates to the lzma library; it is
the single strategy shared by the xz and lzma tags. -/
def LzmaStrategy : CompressionStrategy :=
  ⟨taggedCompress 3, taggedDecompress 3⟩

/-- Modelled from the spec: ZlibStrategy delegates to the zlib library. -/
def ZlibStrategy : CompressionStrategy :=
  ⟨taggedCompress 4, taggedDecompress 4⟩

/-- Modelled from the spec: ZstdStrategy delegates to the zstandard library. -/
def ZstdStrategy : CompressionStrategy :=
  ⟨taggedCompress 5, taggedDecompress 5⟩

/-- FileCompressor state after a successful construction. -/
structure FileCompressor where
  compression_level : Int
  deriving DecidableEq

/-- The strategy registry built in FileCompressor.__init__: the dict mapping
format tags to strategy instances, with xz and lzma sharing LzmaStrategy. -/
def strategies (fmt : String) : Option CompressionStrategy :=
  if fmt = "gz" then some GzipStrategy
  else if fmt = "bz2" then some Bz2Strategy
  else if fmt = "xz" then some LzmaStrategy
  else if fmt = "lzma" then some LzmaStrategy
  else if fmt = "zlib" then some ZlibStrategy
  else if fmt = "zstd" then some ZstdStrategy
  else none

/-- FileCompressor.__init__: raises ValueError (the spec's ConfigurationError)
unless 1 <= compression_level <= 9; otherwise the object is built. -/
def FileCompressor.init (compression_level : Int) : Except PyErr FileCompressor :=
  if ¬(1 ≤ compression_level ∧ compression_level ≤ 9) then
    .error .configurationError
  else
    .ok ⟨compression_level⟩

/-- FileCompressor.compress: checks the format against the registry, reads the
input file (readOk injects the read failure, data is the file content),
compresses with the instance level and writes the output file.  The result
carries the bytes written to output_file together with the function's Python
return value, which is None (the body has no return statement). -/
def FileCompressor.compress (c : FileCompressor) (readOk : Bool)
    (data : List Nat) (fmt : String) : Except PyErr (List Nat × Option Nat) :=
  match strategies fmt with
  | none => .error .unsupportedFormat
  | some s =>
    if !readOk then .error .sourceReadError
    else .ok (s.compress data c.compression_level, none)

/-- FileCompressor.decompress: checks the format, reads the compressed input
(data), decompresses and writes the output file; like compress it returns
Python None next to the bytes written. -/
def FileCompressor.decompress (_c : FileCompressor) (data : List Nat)
    (fmt : String) : Except PyErr (List Nat × Option Nat) :=
  match strategies fmt with
  | none => .error .unsupportedFormat
  | some s =>
    match s.decompress data with
    | .error e => .error e
    | .ok d => .ok (d, none)

/-- Python str.rstrip applied with the single character slash: remove all
trailing slashes. -/
def pyRstripSlash (s : String) : String :=
  ⟨(s.data.reverse.dropWhile (fun c => c == '/')).reverse⟩

/-- Object key derivation inside ObjectStorage.compress_and_upload:
object_name.format, prepended by folder_path.rstrip(slash) and a slash when
folder_path is non-empty. -/
def object_key (folder_path object_name fmt : String) : String :=
  let withExt := object_name ++ "." ++ fmt
  if folder_path ≠ "" then pyRstripSlash folder_path ++ "/" ++ withExt
  else withExt

/-- Stated from the claim's words: folder_path with any trailing separator
stripped, then a separator, then object_name, then a dot, then the format;
just object_name.format when folder_path is empty. -/
def claimObjectKey (folder_path object_name fmt : String) : String :=
  if folder_path = "" then object_name ++ "." ++ fmt
  else pyRstripSlash folder_path ++ "/" ++ object_name ++ "." ++ fmt

/-- Whether a character list contains two adjacent path separators. -/
def hasDoubleSep : List Char → Bool
  | c1 :: c2 :: rest => (c1 == '/' && c2 == '/') || hasDoubleSep (c2 :: rest)
  | _ => false

/-- Whether a string ends with a path separator. -/
def endsWithSep (s : String) : Bool :=
  s.data.getLast? == some '/'

/-- The last path component of a Python path string. -/
def pyPathName (s : String) : String :=
  ⟨(s.data.reverse.takeWhile (fun c => c != '/')).reverse⟩

/-- Path(input_file).suffix.replace(dot, empty): the extension after the last
dot of the last path component, empty when the name has no dot (dotfile edge
cases approximated; no claim depends on this field's value). -/
def pyFileExt (s : String) : String :=
  let n := (pyPathName s).data
  if n.contains '.' then ⟨(n.reverse.takeWhile (fun c => c != '.')).reverse⟩
  else ""

/-- The transfer record persisted to the Record Sink (schema.py FileSchema). -/
structure FileSchema where
  file_name : String
  file_type : String
  original_file_size : Nat
  file_compression_type : String
  key : String
  file_url : String
  compressed_file_size : Nat
  created_at : Nat
  deriving DecidableEq

/-- The class-level default of FileSchema.created_at: datetime.now evaluated
once, when schema.py is imported. -/
def fileSchemaDefault (importTime : Nat) : Nat := importTime

/-- pydantic construction of a FileSchema at wall-clock instant `_now`: an
omitted created_at receives the class-level default evaluated at import time;
the construction instant plays no role in the stored value. -/
def FileSchema.construct (importTime _now : Nat) (file_name file_type : String)
    (original_file_size : Nat) (file_compression_type key file_url : String)
    (compressed_file_size : Nat) (created_at : Option Nat) : FileSchema :=
  ⟨file_name, file_type, original_file_size, file_compression_type, key,
    file_url, compressed_file_size, created_at.getD (fileSchemaDefault importTime)⟩

/-- pydantic validation at the compress_and_upload call site: file_url (str)
and compressed_file_size (float) are required non-Optional fields, so Python
None is rejected with a ValidationError; created_at is omitted there and
receives the class-level default.  At runtime this call site is unreachable:
the TypeError raised by awaiting the synchronous compress precedes it. -/
def FileSchema.validate (importTime : Nat) (file_name file_type : String)
    (original_file_size : Nat) (file_compression_type key : String)
    (file_url : Option String) (compressed_file_size : Option Nat) :
    Except PyErr FileSchema :=
  match file_url, compressed_file_size with
  | some u, some cs =>
    .ok ⟨file_name, file_type, original_file_size, file_compression_type, key,
      u, cs, fileSchemaDefault importTime⟩
  | _, _ => .error .validationError

/-- DigitalOceanStorage state after construction. -/
structure DigitalOceanStorage where
  bucket_name : String
  public_access : Bool
  deriving DecidableEq

/-- Remote bucket state for listing: the keys currently stored. -/
structure SpacesBucket where
  keys : List String
  deriving DecidableEq

/-- DigitalOceanStorage.get_object_url: the templated public URL. -/
def get_object_url (bucket_name object_name : String) : String :=
  "https://" ++ bucket_name ++ ".blr1.digitaloceanspaces.com/" ++ object_name

/-- DigitalOceanStorage.store_object: the boto3 upload_file call is an
external collaborator (remoteFail injects its failure); any exception is
caught, printed and converted to None, success yields the templated URL. -/
def store_object (remoteFail : Bool) (bucket_name object_name : String) :
    Option String :=
  if remoteFail then none else some (get_object_url bucket_name object_name)

/-- DigitalOceanStorage.list_objects: delegates to the client's
list_objects_v2 (modelled from the spec as the stored keys having the given
prefix); any exception is caught, printed and converted to the empty list. -/
def DigitalOceanStorage.list_objects (remoteFail : Bool) (bucket : SpacesBucket)
    (pfx : String) : List String :=
  if remoteFail then []
  else bucket.keys.filter (fun k => pfx.data.isPrefixOf k.data)

/-- Modelled from the spec: the boto3 download_file call fetches the bytes
stored under the key, failing (none) when the key is absent or the remote
call fails. -/
def s3_download (remoteFail : Bool) (store : List (String × List Nat))
    (key : String) : Option (List Nat) :=
  if remoteFail then none else store.lookup key

/-- DigitalOceanStorage.download_file: True when the client call succeeded,
False when it raised (the exception is caught and printed). -/
def download_file (remoteFail : Bool) (store : List (String × List Nat))
    (key : String) : Bool :=
  (s3_download remoteFail store key).isSome

/-- The prefix normalization in ObjectStorage.list_objects: append a slash to
a non-empty prefix that does not already end with one. -/
def normalize_pfx (p : String) : String :=
  if p != "" && !(p.data.getLast? == some '/') then p ++ "/" else p

/-- ObjectStorage.list_objects: normalizes the prefix, then delegates to the
storage client.  The delegated call is the synchronous
DigitalOceanStorage.list_objects, which runs to completion, but the method
awaits the list it returned; awaiting a non-awaitable raises TypeError, so
the except block prints the error and returns the empty list.  Every call
therefore returns [] regardless of prefix and bucket state; the delegated
result is computed and discarded. -/
def ObjectStorage.list_objects (remoteFail : Bool) (bucket : SpacesBucket)
    (p : String) : List String :=
  let _delegated := DigitalOceanStorage.list_objects remoteFail bucket (normalize_pfx p)
  []

/-- Trace of one compress_and_upload call: how many temporary files it
created and deleted, whether its temporary file remains on disk, and the
records it persisted to the Record Sink. -/
structure UploadTrace where
  tempCreated : Nat
  tempDeleted : Nat
  tempExists : Bool
  records : List FileSchema
  deriving DecidableEq

/-- ObjectStorage.compress_and_upload before the exception-handler decorator.
World inputs: tmpCreateOk (NamedTemporaryFile succeeds), readOk (the input
file is readable), uploadOk and saveOk (the outcomes the remote store call
and the record-sink write would have, were they reached), sourceBytes (the
input file content), importTime (the schema.py import instant).  If the
temporary file cannot be created, the except block dereferences the unbound
compressed_path and raises NameError.  Otherwise the synchronous
FileCompressor.compress runs to completion: if it raises (unknown format,
unreadable input) the except block unlinks the temporary file and returns
None; if it succeeds it has written the temporary file and returned None,
and awaiting that None raises TypeError, so the except block again unlinks
the temporary file exactly once and returns None.  The stat, key derivation
(object_key), upload (store_object), record validation (FileSchema.validate)
and save that follow in the source text are never reached. -/
def compress_and_upload_run (comp : FileCompressor)
    (tmpCreateOk readOk _uploadOk _saveOk : Bool)
    (sourceBytes : List Nat) (_bucket_name : String) (_importTime : Nat)
    (_input_file _object_name _folder_path fmt : String) :
    UploadTrace × Except PyErr (Option String) :=
  if !tmpCreateOk then
    (⟨0, 0, false, []⟩, .error .nameErr)
  else
    match FileCompressor.compress comp readOk sourceBytes fmt with
    | .error _ => (⟨1, 1, false, []⟩, .ok none)
    | .ok (_compressedBytes, _compressed_size) => (⟨1, 1, false, []⟩, .ok none)

/-- Modelled from the spec: utils.ExceptionHandler.try_except (the decorator
module is not part of src) converts an exception escaping the wrapped call
into an absent result, per the §7 propagation policy. -/
def try_except (r : Except PyErr (Option String)) : Option String :=
  match r with
  | .ok v => v
  | .error _ => none

/-- ObjectStorage.compress_and_upload as observed by the caller: the wrapped
body with the exception-handler decorator applied to its result. -/
def compress_and_upload (comp : FileCompressor)
    (tmpCreateOk readOk uploadOk saveOk : Bool)
    (sourceBytes : List Nat) (bucket_name : String) (importTime : Nat)
    (input_file object_name folder_path fmt : String) :
    UploadTrace × Option String :=
  let r := compress_and_upload_run comp tmpCreateOk readOk uploadOk saveOk
    sourceBytes bucket_name importTime input_file object_name folder_path fmt
  (r.1, try_except r.2)

/-- Trace of one download_and_decompress call. -/
structure DownTrace where
  tempCreated : Nat
  tempDeleted : Nat
  tempExists : Bool
  outputWritten : Bool
  deriving DecidableEq

/-- The source key derivation in ObjectStorage.download_and_decompress: the
folder path with trailing slashes stripped joined to the object name (no
format suffix is appended there). -/
def download_object_path (folder_path object_name : String) : String :=
  if folder_path ≠ "" then pyRstripSlash folder_path ++ "/" ++ object_name
  else object_name

/-- ObjectStorage.download_and_decompress: compute the source key and create
the temporary file; a failure before the temporary-file name is bound makes
the except block raise NameError, and this method has no exception-handler
decorator, so that error escapes.  Otherwise the synchronous
download_file call runs to completion — on an absent key the client raises
inside it and it returns False, on a present key it writes the fetched bytes
into the temporary file and returns True — and then awaiting its bool raises
TypeError before the success test, so on every fetch outcome the except
block unlinks the temporary file exactly once and the call returns False.
The decompress step and the destination write that follow in the source text
are never reached: no output file is ever created. -/
def download_and_decompress (_comp : FileCompressor)
    (tmpCreateOk remoteFail : Bool) (store : List (String × List Nat))
    (object_name folder_path _fmt : String) :
    DownTrace × Except PyErr Bool :=
  let object_path := download_object_path folder_path object_name
  if !tmpCreateOk then
    (⟨0, 0, false, false⟩, .error .nameErr)
  else
    match s3_download remoteFail store object_path with
    | none => (⟨1, 1, false, false⟩, .ok false)
    | some _fetched => (⟨1, 1, false, false⟩, .ok false)

/-- ObjectStorage state after construction. -/
structure ObjectStorage where
  storage : DigitalOceanStorage
  compressor : FileCompressor
  deriving DecidableEq

/-- ObjectStorage.__init__: builds the storage client, then the compressor;
a compressor construction failure propagates and no ObjectStorage value is
produced. -/
def ObjectStorage.init (bucket_name : String) (compression_level : Int)
    (public_access : Bool) : Except PyErr ObjectStorage :=
  let storage : DigitalOceanStorage := ⟨bucket_name, public_access⟩
  match FileCompressor.init compression_level with
  | .error e => .error e
  | .ok comp => .ok ⟨storage, comp⟩

theorem string_data_append (s t : String) : (s ++ t).data = s.data ++ t.data := rfl

theorem compress_snd_eq_none (c : FileCompressor) (readOk : Bool) (d : List Nat)
    (f : String) (out : List Nat × Option Nat)
    (h : FileCompressor.compress c readOk d f = .ok out) : out.2 = none := by
  unfold FileCompressor.compress at h
  cases hs : strategies f with
  | none => rw [hs] at h; cases h
  | some s =>
    rw [hs] at h
    cases readOk with
    | false => simp at h
    | true =>
      simp at h
      rw [← h]

theorem hds_of_no_slash (l : List Char) (h : '/' ∉ l) : hasDoubleSep l = false := by
  induction l with
  | nil => rfl
  | cons a t ih =>
    cases t with
    | nil => rfl
    | cons b r =>
      have hb : b ≠ '/' := fun e => h (by simp [e])
      have hrest : '/' ∉ b :: r := fun e => h (List.mem_cons_of_mem a e)
      have := ih hrest
      simp [hasDoubleSep, this]
      exact fun _ => hb

theorem hds_slash_cons (D : List Char) (hD : '/' ∉ D) :
    hasDoubleSep ('/' :: D) = false := by
  cases D with
  | nil => rfl
  | cons d r =>
    have hd : d ≠ '/' := fun e => hD (by simp [e])
    have := hds_of_no_slash (d :: r) hD
    simp [hasDoubleSep, this]
    exact hd

theorem hds_append_slash (D : List Char) (hD : '/' ∉ D) :
    ∀ A : List Char, hasDoubleSep A = false → A.getLast? ≠ some '/' →
      hasDoubleSep (A ++ '/' :: D) = false := by
  intro A
  induction A with
  | nil =>
    intro _ _
    simpa using hds_slash_cons D hD
  | cons a t ih =>
    intro hA hlast
    cases t with
    | nil =>
      have ha : a ≠ '/' := fun e => hlast (by simp [e])
      have := hds_slash_cons D hD
      simp [hasDoubleSep, this]
      exact ha
    | cons b t2 =>
      simp only [hasDoubleSep] at hA
      rcases Bool.or_eq_false_iff.mp hA with ⟨h1, h2⟩
      have hlast2 : (b :: t2).getLast? ≠ some '/' := by
        simpa [List.getLast?_cons_cons] using hlast
      have hrec := ih h2 hlast2
      simp only [List.cons_append] at hrec ⊢
      simp only [hasDoubleSep]
      rw [Bool.or_eq_false_iff]
      exact ⟨h1, by simpa only [List.cons_append] using hrec⟩

theorem hds_append_left (x y : List Char) (h : hasDoubleSep (x ++ y) = false) :
    hasDoubleSep x = false := by
  induction x with
  | nil => rfl
  | cons a t ih =>
    cases t with
    | nil => rfl
    | cons b t2 =>
      simp only [List.cons_append] at h
      simp only [hasDoubleSep] at h ⊢
      rcases Bool.or_eq_false_iff.mp h with ⟨h1, h2⟩
      have := ih (by simpa only [List.cons_append] using h2)
      simp [h1, this]

theorem pyRstripSlash_getLast (s : String) :
    (pyRstripSlash s).data.getLast? ≠ some '/' := by
  intro h
  unfold pyRstripSlash at h
  rw [List.getLast?_reverse] at h
  have := List.head?_dropWhile_not (fun c => c == '/') s.data.reverse
  rw [h] at this
  simp at this

theorem pyRstripSlash_hds (s : String) (h : hasDoubleSep s.data = false) :
    hasDoubleSep (pyRstripSlash s).data = false := by
  obtain ⟨u, hu⟩ := List.dropWhile_suffix (l := s.data.reverse) (fun c => c == '/')
  have hs : s.data = (s.data.reverse.dropWhile (fun c => c == '/')).reverse ++ u.reverse := by
    have := congrArg List.reverse hu
    simpa [List.reverse_append] using this.symm
  have : hasDoubleSep (pyRstripSlash s).data =
      hasDoubleSep (s.data.reverse.dropWhile (fun c => c == '/')).reverse := rfl
  rw [this]
  exact hds_append_left _ _ (by rw [← hs] at *; exact h)

theorem getLast?_ne_slash (l : List Char) (h : '/' ∉ l) : l.getLast? ≠ some '/' :=
  fun hl => h (List.mem_of_getLast?_eq_some hl)

/-- Claim C1: for every input and every failure point (temporary-file
creation, read, compression, upload, metadata persist), compress_and_upload
leaves no temporary file on disk after returning, and every temporary
artifact it created is deleted exactly once — no leak and no double delete,
including when the failure occurs before the temporary file was created. -/
theorem C1_temp_file_lifecycle (comp : FileCompressor)
    (tmpCreateOk readOk uploadOk saveOk : Bool)
    (sourceBytes : List Nat) (bucket_name : String) (importTime : Nat)
    (input_file object_name folder_path fmt : String) :
    ((compress_and_upload comp tmpCreateOk readOk uploadOk saveOk sourceBytes
      bucket_name importTime input_file object_name folder_path fmt).1.tempExists = false) ∧
    ((compress_and_upload comp tmpCreateOk readOk uploadOk saveOk sourceBytes
      bucket_name importTime input_file object_name folder_path fmt).1.tempDeleted =
      (compress_and_upload comp tmpCreateOk readOk uploadOk saveOk sourceBytes
        bucket_name importTime input_file object_name folder_path fmt).1.tempCreated) ∧
    ((compress_and_upload comp tmpCreateOk readOk uploadOk saveOk sourceBytes
      bucket_name importTime input_file object_name folder_path fmt).1.tempCreated ≤ 1) := by
  unfold compress_and_upload compress_and_upload_run
  split
  · simp
  · cases h : FileCompressor.compress comp readOk sourceBytes fmt with
    | error e => simp [h]
    | ok out =>
      obtain ⟨cb, cs⟩ := out
      simp [h]

/-- Claim C2 (code bug): no call of compress_and_upload ever returns a URL
and no TransferRecord is ever persisted.  The synchronous
FileCompressor.compress returns None, so awaiting it raises TypeError (and
even past that point, FileSchema validation would reject
compressed_file_size None); every call ends in the except branch, which
unlinks the temporary file and returns None. -/
theorem C2_upload_never_returns_url (comp : FileCompressor)
    (tmpCreateOk readOk uploadOk saveOk : Bool)
    (sourceBytes : List Nat) (bucket_name : String) (importTime : Nat)
    (input_file object_name folder_path fmt : String) :
    ((compress_and_upload comp tmpCreateOk readOk uploadOk saveOk sourceBytes
      bucket_name importTime input_file object_name folder_path fmt).2 = none) ∧
    ((compress_and_upload comp tmpCreateOk readOk uploadOk saveOk sourceBytes
      bucket_name importTime input_file object_name folder_path fmt).1.records = []) := by
  unfold compress_and_upload
  cases tmpCreateOk with
  | false => simp [compress_and_upload_run, try_except]
  | true =>
    cases h : FileCompressor.compress comp readOk sourceBytes fmt with
    | error e => simp [compress_and_upload_run, h, try_except]
    | ok out =>
      obtain ⟨cb, cs⟩ := out
      simp [compress_and_upload_run, h, try_except]

/-- Claim C3: for every recognized format tag, every byte sequence and every
construction level in the accepted range, decompressing the output of
compress restores the original bytes (round-trip identity of the strategy
registry). -/
theorem C3_roundtrip_identity (lvl : Int) (c : FileCompressor)
    (_hc : FileCompressor.init lvl = .ok c)
    (fmt : String)
    (hf : fmt ∈ (["gz", "bz2", "xz", "lzma", "zlib", "zstd"] : List String))
    (B : List Nat) :
    ∃ out, FileCompressor.compress c true B fmt = .ok (out, none) ∧
      FileCompressor.decompress c out fmt = .ok (B, none) := by
  simp only [List.mem_cons, List.mem_singleton, List.not_mem_nil, or_false] at hf
  rcases hf with h | h | h | h | h | h <;> subst h
  · exact ⟨1 :: B, rfl, rfl⟩
  · exact ⟨2 :: B, rfl, rfl⟩
  · exact ⟨3 :: B, rfl, rfl⟩
  · exact ⟨3 :: B, rfl, rfl⟩
  · exact ⟨4 :: B, rfl, rfl⟩
  · exact ⟨5 :: B, rfl, rfl⟩

/-- Witness for C3 at level 6, format gz, byte sequence [7]. -/
theorem C3_roundtrip_witness :
    FileCompressor.init 6 = .ok ⟨6⟩ ∧
    "gz" ∈ (["gz", "bz2", "xz", "lzma", "zlib", "zstd"] : List String) ∧
    ∃ out, FileCompressor.compress ⟨6⟩ true [7] "gz" = .ok (out, none) ∧
      FileCompressor.decompress ⟨6⟩ out "gz" = .ok ([7], none) :=
  ⟨by rfl, by decide, C3_roundtrip_identity 6 ⟨6⟩ (by rfl) "gz" (by decide) [7]⟩

/-- Claim C4 counterexample: with folder_path a//b the derived key a//b/x.zstd
contains a double separator, refuting the unconditional no-double-separator
clause. -/
theorem C4_double_separator_counterexample :
    hasDoubleSep (object_key "a//b" "x" "zstd").data = true := by decide

/-- Claim C4 (amended): the derived object key equals the claimed formula —
folder_path with trailing separators stripped, a separator, object_name, a
dot, the format, or just object_name.format when folder_path is empty — and
the example holds; the key has no double separator and no trailing separator
provided folder_path itself contains no double separator and object_name and
format contain no separator (the derivation passes input double separators
through, as the counterexample shows). -/
theorem C4_object_key_derivation :
    (object_key "data/html/" "x" "zstd" = "data/html/x.zstd") ∧
    (∀ f n e : String, object_key f n e = claimObjectKey f n e) ∧
    (∀ f n e : String, hasDoubleSep f.data = false →
      '/' ∉ n.data → '/' ∉ e.data →
      hasDoubleSep (object_key f n e).data = false ∧
      endsWithSep (object_key f n e) = false) := by
  refine ⟨by decide, ?_, ?_⟩
  · intro f n e
    by_cases hfe : f = ""
    · simp [object_key, claimObjectKey, hfe]
    · have h1 : object_key f n e = pyRstripSlash f ++ "/" ++ (n ++ "." ++ e) := by
        simp [object_key, hfe]
      have h2 : claimObjectKey f n e = pyRstripSlash f ++ "/" ++ n ++ "." ++ e := by
        simp [claimObjectKey, hfe]
      rw [h1, h2]
      apply String.ext
      simp [string_data_append, List.append_assoc]
  · intro f n e hf hn he
    have hD : '/' ∉ n.data ++ '.' :: e.data := by
      intro hm
      rcases List.mem_append.mp hm with hm | hm
      · exact hn hm
      · rcases List.mem_cons.mp hm with hm | hm
        · exact absurd hm (by decide)
        · exact he hm
    by_cases hfe : f = ""
    · have hdata : (object_key f n e).data = n.data ++ '.' :: e.data := by
        simp [object_key, hfe, string_data_append]
      constructor
      · rw [hdata]; exact hds_of_no_slash _ hD
      · unfold endsWithSep
        rw [hdata]
        simp only [beq_eq_false_iff_ne, ne_eq]
        exact getLast?_ne_slash _ hD
    · have hdata : (object_key f n e).data =
          (pyRstripSlash f).data ++ '/' :: (n.data ++ '.' :: e.data) := by
        simp [object_key, hfe, string_data_append]
      constructor
      · rw [hdata]
        exact hds_append_slash _ hD _ (pyRstripSlash_hds f hf) (pyRstripSlash_getLast f)
      · unfold endsWithSep
        rw [hdata]
        simp only [beq_eq_false_iff_ne, ne_eq]
        rw [List.getLast?_append_cons]
        have hsplit : ('/' :: (n.data ++ '.' :: e.data) : List Char) =
            ('/' :: n.data) ++ '.' :: e.data := by simp
        rw [hsplit, List.getLast?_append_cons]
        apply getLast?_ne_slash
        intro hm
        rcases List.mem_cons.mp hm with hm | hm
        · exact absurd hm (by decide)
        · exact he hm

/-- Witness for C4 at the example triple from the claim. -/
theorem C4_object_key_witness :
    hasDoubleSep ("data/html/" : String).data = false ∧
    '/' ∉ ("x" : String).data ∧ '/' ∉ ("zstd" : String).data ∧
    hasDoubleSep (object_key "data/html/" "x" "zstd").data = false ∧
    endsWithSep (object_key "data/html/" "x" "zstd") = false :=
  ⟨by decide, by decide, by decide,
    (C4_object_key_derivation.2.2 "data/html/" "x" "zstd" (by decide) (by decide) (by decide)).1,
    (C4_object_key_derivation.2.2 "data/html/" "x" "zstd" (by decide) (by decide) (by decide)).2⟩

/-- Claim C5 (code bug): the value compress_and_upload captures as the
compressed size is the Python return value of FileCompressor.compress, which
is always None — in particular it never equals the byte size of the
compressed artifact written to the temporary file. -/
theorem C5_compressed_size_is_none (c : FileCompressor) (readOk : Bool)
    (d : List Nat) (f : String) (out : List Nat × Option Nat)
    (h : FileCompressor.compress c readOk d f = .ok out) :
    out.2 = none ∧ out.2 ≠ some (out.1.length) :=
  ⟨compress_snd_eq_none c readOk d f out h, by
    rw [compress_snd_eq_none c readOk d f out h]; simp⟩

/-- Witness for C5 at level 6, format gz, input bytes [1, 2]. -/
theorem C5_compressed_size_witness :
    FileCompressor.compress ⟨6⟩ true [1, 2] "gz" = .ok ([1, 1, 2], none) ∧
    ((([1, 1, 2], none) : List Nat × Option Nat).2 = none ∧
      (([1, 1, 2], none) : List Nat × Option Nat).2 ≠ some ([1, 1, 2].length)) :=
  ⟨by rfl, C5_compressed_size_is_none ⟨6⟩ true [1, 2] "gz" ([1, 1, 2], none) (by rfl)⟩

/-- Claim C6: constructing the compressor succeeds for every level in [1,9]
(in particular 1 and 9) and fails with the spec's ConfigurationError for
every level outside that range (in particular 0 and 10); a failing
compressor construction aborts ObjectStorage construction, so no partial
object is built. -/
theorem C6_construction_level_validation :
    ((FileCompressor.init 0).toOption.isSome = false) ∧
    ((FileCompressor.init 10).toOption.isSome = false) ∧
    ((FileCompressor.init 1).toOption.isSome = true) ∧
    ((FileCompressor.init 9).toOption.isSome = true) ∧
    (∀ lvl : Int,
      (FileCompressor.init lvl).toOption.isSome = decide (1 ≤ lvl ∧ lvl ≤ 9)) ∧
    (∀ lvl : Int, (1 ≤ lvl ∧ lvl ≤ 9) ∨
      FileCompressor.init lvl = .error .configurationError) ∧
    (∀ (b : String) (lvl : Int) (p : Bool),
      (ObjectStorage.init b lvl p).toOption.isSome =
        (FileCompressor.init lvl).toOption.isSome) := by
  refine ⟨by rfl, by rfl, by rfl, by rfl, ?_, ?_, ?_⟩
  · intro lvl
    by_cases h : 1 ≤ lvl ∧ lvl ≤ 9 <;>
      simp [FileCompressor.init, h, Except.toOption]
  · intro lvl
    by_cases h : 1 ≤ lvl ∧ lvl ≤ 9
    · exact Or.inl h
    · exact Or.inr (by simp [FileCompressor.init, h])
  · intro b lvl p
    unfold ObjectStorage.init
    cases h : FileCompressor.init lvl <;> simp [h, Except.toOption]

/-- Claim C7: download_and_decompress on a key absent from the remote store
returns False, writes nothing to the destination path, and deletes its
temporary file exactly once, leaving no residue. -/
theorem C7_missing_key_cleanup (comp : FileCompressor)
    (store : List (String × List Nat)) (object_name folder_path fmt : String)
    (h : store.lookup (download_object_path folder_path object_name) = none) :
    download_and_decompress comp true false store object_name folder_path fmt =
      (⟨1, 1, false, false⟩, .ok false) := by
  simp [download_and_decompress, s3_download, h]

/-- Witness for C7: a store holding only data/a, asked for data/b. -/
theorem C7_missing_key_witness :
    ([("data/a", [1])] : List (String × List Nat)).lookup
      (download_object_path "data" "b") = none ∧
    download_and_decompress ⟨6⟩ true false [("data/a", [1])] "b" "data" "zstd" =
      (⟨1, 1, false, false⟩, .ok false) :=
  ⟨by decide, C7_missing_key_cleanup ⟨6⟩ [("data/a", [1])] "b" "data" "zstd" (by decide)⟩

/-- Claim C8: for every bucket state and remote outcome, list_objects with
the empty prefix and with prefix data return results identical to
list_objects with prefix data/; the prefix is normalized to end with a
separator unless empty before delegation; and a bucket or prefix with no
matches yields the empty sequence, not a failure.  The identities hold
degenerately: awaiting the synchronous delegated call raises TypeError after
it completes, so every list_objects call returns the empty sequence (the
final conjunct), which also subsumes the no-match case. -/
theorem C8_prefix_normalization :
    (∀ (remoteFail : Bool) (bucket : SpacesBucket),
      ObjectStorage.list_objects remoteFail bucket "" =
        ObjectStorage.list_objects remoteFail bucket "data/" ∧
      ObjectStorage.list_objects remoteFail bucket "data" =
        ObjectStorage.list_objects remoteFail bucket "data/") ∧
    (∀ p : String, p = "" ∨ (normalize_pfx p).data.getLast? = some '/') ∧
    (∀ (remoteFail : Bool) (bucket : SpacesBucket) (p : String),
      ObjectStorage.list_objects remoteFail bucket p = []) := by
  refine ⟨fun _ _ => ⟨rfl, rfl⟩, ?_, fun _ _ _ => rfl⟩
  intro p
  by_cases hp : p = ""
  · exact Or.inl hp
  · refine Or.inr ?_
    unfold normalize_pfx
    by_cases he : p.data.getLast? = some '/'
    · simp [he]
    · have hp' : (p != "") = true := by simpa using hp
      have he' : (p.data.getLast? == some '/') = false := by simpa using he
      rw [hp', he']
      simp only [Bool.not_false, Bool.and_true, if_true, string_data_append]
      exact List.getLast?_concat p.data

/-- Claim C9 counterexample: a failed remote listing on a non-empty bucket
and a successful listing of an empty bucket return the same value, so the
orchestrator cannot distinguish a failed list call from an empty result. -/
theorem C9_list_failure_counterexample :
    DigitalOceanStorage.list_objects true ⟨["x"]⟩ "" =
      DigitalOceanStorage.list_objects false ⟨[]⟩ "" := by decide

/-- Claim C9 (amended): store and fetch failures surface as sentinel values
distinguishable from every success (None where success is always a URL,
False where success is True), but a list failure is swallowed into the empty
sequence; no blob-store failure propagates as a raised typed error. -/
theorem C9_failure_reporting :
    (∀ b k : String, store_object true b k = none) ∧
    (∀ b k : String, (store_object false b k).isSome = true) ∧
    (∀ (store : List (String × List Nat)) (k : String),
      download_file true store k = false) ∧
    (∀ (store : List (String × List Nat)) (k : String),
      download_file false store k = (store.lookup k).isSome) ∧
    (∀ (bucket : SpacesBucket) (p : String),
      DigitalOceanStorage.list_objects true bucket p = []) :=
  ⟨fun _ _ => rfl, fun _ _ => rfl, fun _ _ => rfl, fun _ _ => rfl, fun _ _ => rfl⟩

/-- Claim C10: a FileSchema constructed without an explicit created_at
receives the default evaluated once at class-definition (import) time, not
the construction instant, so records constructed at different instants carry
identical default created_at values. -/
theorem C10_static_created_at_default (importTime t1 t2 : Nat) (fn ft : String)
    (osz : Nat) (fct k u : String) (cs : Nat) :
    (FileSchema.construct importTime t1 fn ft osz fct k u cs none).created_at =
      (FileSchema.construct importTime t2 fn ft osz fct k u cs none).created_at ∧
    (FileSchema.construct importTime t1 fn ft osz fct k u cs none).created_at =
      fileSchemaDefault importTime :=
  ⟨rfl, rfl⟩
